import Mathlib

/-!
Shallow embedding of the VinylPi detection/consistency engine and session
lifecycle manager (vinylpi_lib.py, vinylpi.py, vinylpi-web/backend/vinylpi_manager.py).

Pure control logic is translated into executable Lean functions; external I/O
(the Shazam recognition service, the Last.fm network, the audio stream) is
modelled by explicit parameters (oracle results, success/failure flags) and by
effect traces returned alongside the computed values.
-/

namespace VinylPi

/-- An (artist, title) pair, the identity used for deduplication. -/
abbrev SongPair := String × String

/-- A raw (artist, title) pair as the web manager sees it: either component may
be Python `None`. -/
abbrev TrackPair := Option String × Option String

/-! ## Constants from vinylpi_lib.py -/

def CONSISTENCY_CHECKS : Nat := 3
def CONSISTENCY_THRESHOLD : Nat := 2
def AGGRESSIVE_CHECK_COUNT : Nat := 3
def SILENCE_THRESHOLD : ℚ := 95 / 100
def ACTIVITY_THRESHOLD : ℚ := 99 / 100
def ACTIVITY_WINDOW : Nat := 2
def STANDBY_WINDOW : Nat := 20

/-! ## Recognition (vinylpi_lib.recognize_song) -/

/-- Result of one `recognize_song` call: `(artist, title, confidence)`, where
artist/title are `None` when nothing was recognized. -/
structure RecogResult where
  artist : Option String
  title : Option String
  confidence : ℚ
deriving DecidableEq

/-- Python truthiness-plus-sentinel test used throughout the source:
`artist and artist != "None"` (a `None` value or an empty string is falsy). -/
def validName : Option String → Bool
  | none => false
  | some s => if s = "" ∨ s = "None" then false else true

/-- `if artist and title and artist != "None" and title != "None"` for a pair
of plain strings. -/
def validPair (p : SongPair) : Bool :=
  validName (some p.1) && validName (some p.2)

/-- `validName` applied to both components of a raw optional pair. -/
def validNames (artist title : Option String) : Bool :=
  validName artist && validName title

/-- `is_audio_active`: maximum absolute amplitude of the clip
(`np.max(np.abs(audio_array))`; 0 for the empty clip, whose NumPy error is
swallowed by the surrounding handler). -/
def is_audio_active (audio : List ℚ) : ℚ :=
  audio.foldl (fun m x => max m |x|) 0

/-- `recognize_song`: the external Shazam call is modelled by the oracle `svc`
(what the service would answer if contacted).  Returns the
`(artist, title, confidence)` triple the Python function returns, paired with
a flag recording whether the external service was contacted at all. -/
def recognize_song (audio : Option (List ℚ)) (svc : Option (String × String)) :
    (Option String × Option String × ℚ) × Bool :=
  match audio with
  | none => ((none, none, 0), false)
  | some samples =>
      if is_audio_active samples < 1 / 20 then ((none, none, 0), false)
      else
        match svc with
        | some (sub, tit) => ((some sub, some tit, 1), true)
        | none => ((none, none, 0), true)

/-! ## Consistency check (vinylpi_lib.check_song_consistency) -/

/-- The filtering step of the per-sample loop: a sample contributes an
`(artist, title)` entry to `song_checks` only when both components are
non-`None`, non-empty and not the `"None"` sentinel. -/
def validOfSample (r : RecogResult) : Option SongPair :=
  match r.artist, r.title with
  | some a, some t => if validPair (a, t) then some (a, t) else none
  | _, _ => none

/-- The `song_checks` list accumulated over the samples, in order. -/
def validPairs (samples : List RecogResult) : List SongPair :=
  samples.filterMap validOfSample

/-- `Counter(song_checks).most_common(1)`: the element with the maximal count,
ties broken in favour of the earliest element (CPython `heapq.nlargest` is
stable over the counter insertion order, which is first-occurrence order);
`none` exactly when the list is empty. -/
def pickBest (cnt : SongPair → Nat) : List SongPair → Option SongPair
  | [] => none
  | c :: cs =>
      match pickBest cnt cs with
      | none => some c
      | some b => if cnt c < cnt b then some b else some c

/-- Core of `check_song_consistency` over the list of the K recognition
results: tally the valid pairs and return the most common one when any valid
pair was seen (the code returns `most_common[0][0]` whenever `most_common` is
nonempty — the collected `confidence_scores` are never used in the result). -/
def consistencyFromSamples (samples : List RecogResult) : Option SongPair :=
  pickBest (fun p => (validPairs samples).count p) (validPairs samples)

/-- `check_song_consistency`: performs `CONSISTENCY_CHECKS` recognition calls
(`recog i` is the result of the i-th call) and applies the tally. -/
def check_song_consistency (recog : Nat → RecogResult) : Option SongPair :=
  consistencyFromSamples ((List.range CONSISTENCY_CHECKS).map recog)

/-- Sum of the confidences of the samples whose valid pair equals `p`. -/
def matchingConfSum (samples : List RecogResult) (p : SongPair) : ℚ :=
  (samples.filterMap fun r =>
    if validOfSample r = some p then some r.confidence else none).sum

/-- Modelled from the spec: the ConsistencyChecker as the spec words it —
tally valid pairs, take the most frequent pair `best` with first-encountered
tie-breaking, and if its count reaches `CONSISTENCY_THRESHOLD` return `best`
together with the arithmetic mean confidence over only the samples matching
`best`; otherwise return none.  Used solely to compare the spec mandated
behaviour against `consistencyFromSamples` above. -/
def spec_consistency_checker (samples : List RecogResult) :
    Option (SongPair × ℚ) :=
  match pickBest (fun p => (validPairs samples).count p) (validPairs samples) with
  | none => none
  | some best =>
      let c := (validPairs samples).count best
      if CONSISTENCY_THRESHOLD ≤ c then
        some (best, matchingConfSum samples best / (c : ℚ))
      else none

/-! ## Aggressive fallback (vinylpi_lib.aggressive_song_check) -/

/-- The per-round loop body of `aggressive_song_check`: given the outcomes of
successive `check_song_consistency` invocations, return the first one passing
the `song and song[0] and song[1] and song[0] != "None" and song[1] != "None"`
test; none when the rounds are exhausted. -/
def aggressiveAux : List (Option SongPair) → Option SongPair
  | [] => none
  | r :: rest =>
      match r with
      | some p => if validPair p then some p else aggressiveAux rest
      | none => aggressiveAux rest

/-- `aggressive_song_check`: runs `AGGRESSIVE_CHECK_COUNT` rounds, round `i`
re-invoking the full consistency check over the fresh samples `roundRecog i`. -/
def aggressive_song_check (roundRecog : Nat → Nat → RecogResult) : Option SongPair :=
  aggressiveAux ((List.range AGGRESSIVE_CHECK_COUNT).map
    fun i => check_song_consistency (roundRecog i))

/-! ## Scrobbling (vinylpi_lib.update_lastfm_status) -/

/-- Network operations attempted against the Last.fm sink. -/
inductive NetEffect where
  | nowPlaying (artist title : String)
  | scrobbleEff (artist title : String) (ts : Int)
  | clearNowPlaying
deriving DecidableEq

/-- Python truthiness of the optional `start_time` integer (`None` and `0` are
falsy). -/
def truthyTime : Option Int → Bool
  | none => false
  | some n => if n = 0 then false else true

/-- `update_lastfm_status`.  The pylast network is modelled by the two failure
flags (`npFails`: `update_now_playing` raises; `scrFails`: `scrobble` raises);
the returned effect list records every network call attempted, in order.
Returns the `(artist, title, start_time)` triple of the Python function. -/
def update_lastfm_status (npFails scrFails : Bool) (artist title : Option String)
    (last : Option SongPair) (startTime : Option Int) (now : Int) :
    (Option String × Option String × Option Int) × List NetEffect :=
  match artist, title with
  | some a, some t =>
      if validPair (a, t) then
        if some (a, t) ≠ last then
          if npFails then
            ((last.map Prod.fst, last.map Prod.snd, startTime),
             [NetEffect.nowPlaying a t])
          else
            match last, startTime with
            | some (pa, pt), some s =>
                if s ≠ 0 ∧ 30 ≤ now - s then
                  if scrFails then
                    ((some pa, some pt, startTime),
                     [NetEffect.nowPlaying a t, NetEffect.scrobbleEff pa pt s])
                  else
                    ((some a, some t, some now),
                     [NetEffect.nowPlaying a t, NetEffect.scrobbleEff pa pt s])
                else ((some a, some t, some now), [NetEffect.nowPlaying a t])
            | _, _ => ((some a, some t, some now), [NetEffect.nowPlaying a t])
        else
          ((some a, some t, if truthyTime startTime then startTime else some now),
           [])
      else ((none, none, none), [NetEffect.clearNowPlaying])
  | _, _ => ((none, none, none), [NetEffect.clearNowPlaying])

/-! ## Standby/active hysteresis (vinylpi.py main loop, lines 200-213) -/

/-- The standby-mode variables of the main loop. -/
structure ActState where
  in_standby : Bool
  silence_count : Nat
  activity_count : Nat
deriving DecidableEq

/-- One level-monitor update, parameterized by the configuration constants
(thresholds and windows). -/
def levelUpdate (silenceThr activityThr : ℚ) (standbyW activityW : Nat)
    (s : ActState) (amp : ℚ) : ActState :=
  if amp < silenceThr then
    ⟨if standbyW ≤ s.silence_count + 1 ∧ s.in_standby = false then true
      else s.in_standby,
     s.silence_count + 1, 0⟩
  else if activityThr < amp then
    ⟨if activityW ≤ s.activity_count + 1 ∧ s.in_standby = true then false
      else s.in_standby,
     0, s.activity_count + 1⟩
  else s

/-- The level-monitor update with the constants of vinylpi_lib.py. -/
def levelUpdateMain (s : ActState) (amp : ℚ) : ActState :=
  levelUpdate SILENCE_THRESHOLD ACTIVITY_THRESHOLD STANDBY_WINDOW ACTIVITY_WINDOW s amp

/-- One full iteration of the vinylpi.py main loop, reduced to the standby
machinery: two recordings are taken (the loop body is duplicated in the
source), each followed by a level update and a `if in_standby: continue`
gate; the returned flag records whether the iteration reached the
`check_song_consistency` call. -/
def mainCycleStep (s : ActState) (amp1 amp2 : ℚ) : ActState × Bool :=
  let s1 := levelUpdateMain s amp1
  if s1.in_standby then (s1, false)
  else
    let s2 := levelUpdateMain s1 amp2
    if s2.in_standby then (s2, false) else (s2, true)

/-- Run a sequence of main-loop iterations, collecting for each one whether a
recognition call was issued. -/
def runCycles (s : ActState) : List (ℚ × ℚ) → ActState × List Bool
  | [] => (s, [])
  | c :: cs =>
      let r := mainCycleStep s c.1 c.2
      let rest := runCycles r.1 cs
      (rest.1, r.2 :: rest.2)

/-! ## Main-loop detection bookkeeping (vinylpi.py lines 307-355) -/

/-- The detection bookkeeping of the CLI main loop. -/
structure CliState where
  current_song : Option SongPair
  no_song_count : Nat
deriving DecidableEq

/-- The `song and song[0] and song[1] and ...` test applied to a consistency
result (`none` models the `(None, None)` return, whose first component is
falsy). -/
def songValidOpt : Option SongPair → Bool
  | some p => validPair p
  | none => false

/-- The `else` branch of the detection bookkeeping: the non-detection counter
is incremented and, once it reaches 3, `aggressive_song_check` is invoked
(`aggr` is its result); on aggressive failure `current_song` is cleared but
the counter is kept. -/
def mainNoSong (s : CliState) (aggr : Option SongPair) : CliState × Bool :=
  if 3 ≤ s.no_song_count + 1 then
    match aggr with
    | some q =>
        if validPair q then (⟨some q, 0⟩, true)
        else (⟨none, s.no_song_count + 1⟩, true)
    | none => (⟨none, s.no_song_count + 1⟩, true)
  else (⟨s.current_song, s.no_song_count + 1⟩, false)

/-- One detection step of the CLI main loop: `song` is the consistency-check
result, `aggr` the aggressive-fallback result (consulted only when the
fallback fires).  The flag records whether `aggressive_song_check` was
invoked in this step. -/
def mainDetectStep (s : CliState) (song : Option SongPair) (aggr : Option SongPair) :
    CliState × Bool :=
  match song with
  | some p =>
      if validPair p then
        if s.current_song = some p then (s, false) else (⟨some p, 0⟩, false)
      else mainNoSong s aggr
  | none => mainNoSong s aggr

/-- Run a list of detection steps, collecting the aggressive-invocation flag
of each. -/
def runMain (s : CliState) : List (Option SongPair × Option SongPair) → CliState × List Bool
  | [] => (s, [])
  | i :: rest =>
      let r := mainDetectStep s i.1 i.2
      let rest2 := runMain r.1 rest
      (rest2.1, r.2 :: rest2.2)

/-! ## Session manager (vinylpi-web/backend/vinylpi_manager.py) -/

/-- The mutable state of a `VinylPiManager` instance, plus a ghost counter of
currently executing run-loop tasks. -/
structure Mgr where
  running : Bool
  current_device : Option Int
  current_track : Option TrackPair
  last_logged : Option TrackPair
  no_song_count : Nat
  active_tasks : Nat
deriving DecidableEq

/-- `VinylPiManager.__init__`. -/
def mgrInit : Mgr := ⟨false, none, none, none, 0, 0⟩

/-- The tuple `(cur['artist'] if cur else None, cur['title'] if cur else None)`
the detected song is compared against. -/
def curOfTrack : Option TrackPair → TrackPair
  | some q => q
  | none => (none, none)

/-- `_process_song_detection`.  `song` is always the 2-tuple returned by
`check_song_consistency` (a tuple is truthy in Python, so the function's
`if song:` branch is always taken for it).  `metadataOk` models whether the
Last.fm `get_track(...).get_info()` metadata fetch and the subsequent network
calls succeed; on failure the exception is caught and no network effect is
produced, but `current_track` has already been set. -/
def process_song_detection (metadataOk : Bool) (s : Mgr) (song : TrackPair)
    (now : Int) : Mgr × List NetEffect :=
  if song ≠ curOfTrack s.current_track then
    if metadataOk ∧ validNames song.1 song.2 = true then
      match song.1, song.2 with
      | some a, some t =>
          if some song ≠ s.last_logged then
            ({ s with current_track := some song, last_logged := some song,
                      no_song_count := 0 },
             [NetEffect.nowPlaying a t, NetEffect.scrobbleEff a t now])
          else
            ({ s with current_track := some song, no_song_count := 0 },
             [NetEffect.nowPlaying a t])
      | _, _ => ({ s with current_track := some song, no_song_count := 0 }, [])
    else ({ s with current_track := some song, no_song_count := 0 }, [])
  else ({ s with no_song_count := 0 }, [])

/-- `start(device_index)`: single-flight guard, records the device, marks the
session running and spawns the run-loop task. -/
def mgr_start (s : Mgr) (d : Int) : Mgr × Bool :=
  if s.running then (s, false)
  else ({ s with running := true, current_device := some d,
                 active_tasks := s.active_tasks + 1 }, true)

/-- `stop()`: failure when idle; otherwise clears the running flag, awaits the
task (which observes the flag and exits) and clears `current_track`. -/
def mgr_stop (s : Mgr) : Mgr × Bool :=
  if s.running then
    ({ s with running := false, current_track := none,
              active_tasks := s.active_tasks - 1 }, true)
  else (s, false)

/-- The fatal-error path of `_run_vinylpi`: an exception escaping the loop
sets `running = False` and ends the task; `current_track` is not touched. -/
def mgr_fatal (s : Mgr) : Mgr :=
  { s with running := false, active_tasks := s.active_tasks - 1 }

/-- Events that can happen to a manager instance. -/
inductive MgrEv where
  | start (d : Int)
  | stop
  | detect (song : TrackPair) (metadataOk : Bool) (now : Int)
  | fatal

/-- One manager transition; `none` when the event is not enabled (detection
cycles and fatal errors can only occur while the run-loop task is alive). -/
def mgrStep (s : Mgr) : MgrEv → Option Mgr
  | MgrEv.start d => some (mgr_start s d).1
  | MgrEv.stop => some (mgr_stop s).1
  | MgrEv.detect song ok now =>
      if s.running then some (process_song_detection ok s song now).1 else none
  | MgrEv.fatal => if s.running then some (mgr_fatal s) else none

/-- Reachable manager states. -/
inductive Reach : Mgr → Prop where
  | init : Reach mgrInit
  | step {s s2 : Mgr} (e : MgrEv) : Reach s → mgrStep s e = some s2 → Reach s2

/-! ## Concrete inputs used by the counterexamples and witnesses -/

/-- Three recognition results with three distinct valid pairs. -/
def recogDistinct : Nat → RecogResult
  | 0 => ⟨some "A", some "T", 1⟩
  | 1 => ⟨some "B", some "U", 1⟩
  | _ => ⟨some "C", some "V", 1⟩

/-- Samples `[("A","T"), ("A","T"), ("B","U")]` with confidences 1, 1, 1. -/
def samplesAT1 : List RecogResult :=
  [⟨some "A", some "T", 1⟩, ⟨some "A", some "T", 1⟩, ⟨some "B", some "U", 1⟩]

/-- The same samples with the second confidence lowered to 0. -/
def samplesAT0 : List RecogResult :=
  [⟨some "A", some "T", 1⟩, ⟨some "A", some "T", 0⟩, ⟨some "B", some "U", 1⟩]

/-- The manager state reached by start(0); detect ("A","T"); fatal error. -/
def mgrBadState : Mgr :=
  ⟨false, some 0, some (some "A", some "T"), some (some "A", some "T"), 0, 0⟩

/-- Five consistency-check outcomes fed to the CLI loop: a detection of
("A","T"), two failures, a re-detection of the same still-playing track, and
one more failure (no aggressive result is available at any step). -/
def cexInputs : List (Option SongPair × Option SongPair) :=
  [(some ("A", "T"), none), (none, none), (none, none),
   (some ("A", "T"), none), (none, none)]

/-! ## Helper lemmas -/

theorem pickBest_eq_none {cnt : SongPair → Nat} {l : List SongPair} :
    pickBest cnt l = none ↔ l = [] := by
  cases l with
  | nil => simp [pickBest]
  | cons c cs =>
      simp only [pickBest]
      cases h : pickBest cnt cs with
      | none => simp
      | some b => by_cases hlt : cnt c < cnt b <;> simp [hlt]

theorem pickBest_mem {cnt : SongPair → Nat} :
    ∀ {l : List SongPair} {p : SongPair}, pickBest cnt l = some p → p ∈ l := by
  intro l
  induction l with
  | nil => intro p h; simp [pickBest] at h
  | cons c cs ih =>
      intro p h
      simp only [pickBest] at h
      cases hcs : pickBest cnt cs with
      | none => rw [hcs] at h; simp at h; simp [h]
      | some b =>
          rw [hcs] at h
          by_cases hlt : cnt c < cnt b
          · simp [hlt] at h
            subst h
            exact List.mem_cons_of_mem c (ih hcs)
          · simp [hlt] at h
            simp [h]

theorem pickBest_max {cnt : SongPair → Nat} :
    ∀ {l : List SongPair} {p : SongPair}, pickBest cnt l = some p →
      ∀ q ∈ l, cnt q ≤ cnt p := by
  intro l
  induction l with
  | nil => intro p h; simp [pickBest] at h
  | cons c cs ih =>
      intro p h q hq
      simp only [pickBest] at h
      cases hcs : pickBest cnt cs with
      | none =>
          rw [hcs] at h
          have h2 : some c = some p := h
          have hc : c = p := Option.some.inj h2
          have hnil : cs = [] := pickBest_eq_none.mp hcs
          subst hnil
          have hqc : q = c := by simpa using hq
          rw [hqc, hc]
      | some b =>
          rw [hcs] at h
          have h2 : (if cnt c < cnt b then some b else some c) = some p := h
          by_cases hlt : cnt c < cnt b
          · rw [if_pos hlt] at h2
            have hb : b = p := Option.some.inj h2
            rcases List.mem_cons.mp hq with hqc | hqcs
            · rw [hqc, ← hb]; exact Nat.le_of_lt hlt
            · rw [← hb]; exact ih hcs q hqcs
          · rw [if_neg hlt] at h2
            have hc : c = p := Option.some.inj h2
            rcases List.mem_cons.mp hq with hqc | hqcs
            · rw [hqc, ← hc]
            · rw [← hc]
              exact Nat.le_trans (ih hcs q hqcs) (Nat.le_of_not_lt hlt)

theorem validOfSample_valid {r : RecogResult} {p : SongPair}
    (h : validOfSample r = some p) : validPair p = true := by
  unfold validOfSample at h
  cases ha : r.artist with
  | none => rw [ha] at h; cases hb : r.title <;> simp at h
  | some a =>
      cases hb : r.title with
      | none => rw [ha, hb] at h; simp at h
      | some t =>
          rw [ha, hb] at h
          by_cases hv : validPair (a, t) = true
          · simp [hv] at h; rw [← h]; exact hv
          · simp [hv] at h

theorem mem_validPairs_valid {samples : List RecogResult} {p : SongPair}
    (h : p ∈ validPairs samples) : validPair p = true := by
  unfold validPairs at h
  rcases List.mem_filterMap.mp h with ⟨r, _, hr⟩
  exact validOfSample_valid hr

theorem consistency_valid {samples : List RecogResult} {p : SongPair}
    (h : consistencyFromSamples samples = some p) : validPair p = true := by
  unfold consistencyFromSamples at h
  exact mem_validPairs_valid (pickBest_mem h)

theorem check_song_consistency_valid {recog : Nat → RecogResult} {p : SongPair}
    (h : check_song_consistency recog = some p) : validPair p = true :=
  consistency_valid h

/-! ## C1 -/

/-- C1: the claim states the consistency check returns a track only when the
most frequent valid pair occurs at least `CONSISTENCY_THRESHOLD` times, and in
particular returns none on three distinct pairs.  The code never consults the
threshold: on three distinct valid pairs it returns the first pair, not none. -/
theorem claim1_counterexample :
    check_song_consistency recogDistinct = some ("A", "T") ∧
      check_song_consistency recogDistinct ≠ none := by
  constructor
  · rfl
  · intro h
    rw [show check_song_consistency recogDistinct = some ("A", "T") from rfl] at h
    exact Option.noConfusion h

/-- C1 (amended): the consistency check returns none exactly when no sample
yields a valid pair; whenever some sample yields a valid pair it returns a
most-frequent valid pair (the threshold is never consulted, so a single valid
detection suffices). -/
theorem claim1_no_threshold (recog : Nat → RecogResult) :
    (check_song_consistency recog = none ↔
      validPairs ((List.range CONSISTENCY_CHECKS).map recog) = []) ∧
    (∀ p, check_song_consistency recog = some p →
      p ∈ validPairs ((List.range CONSISTENCY_CHECKS).map recog) ∧
      ∀ q ∈ validPairs ((List.range CONSISTENCY_CHECKS).map recog),
        (validPairs ((List.range CONSISTENCY_CHECKS).map recog)).count q ≤
        (validPairs ((List.range CONSISTENCY_CHECKS).map recog)).count p) := by
  constructor
  · unfold check_song_consistency consistencyFromSamples
    exact pickBest_eq_none
  · intro p h
    unfold check_song_consistency consistencyFromSamples at h
    exact ⟨pickBest_mem h, pickBest_max h⟩

/-- C1 witness: the amended theorem applied to the distinct-pairs input. -/
theorem claim1_witness :
    ("A", "T") ∈ validPairs ((List.range CONSISTENCY_CHECKS).map recogDistinct) ∧
    ∀ q ∈ validPairs ((List.range CONSISTENCY_CHECKS).map recogDistinct),
      (validPairs ((List.range CONSISTENCY_CHECKS).map recogDistinct)).count q ≤
      (validPairs ((List.range CONSISTENCY_CHECKS).map recogDistinct)).count ("A", "T") :=
  (claim1_no_threshold recogDistinct).2 ("A", "T") (by rfl)

/-! ## C4 -/

theorem validPairs_map_reassign (samples : List RecogResult) (g : RecogResult → ℚ) :
    validPairs (samples.map fun r => ⟨r.artist, r.title, g r⟩) = validPairs samples := by
  unfold validPairs
  rw [List.filterMap_map]
  have : (validOfSample ∘ fun r : RecogResult => (⟨r.artist, r.title, g r⟩ : RecogResult))
      = validOfSample := funext fun r => rfl
  rw [this]

/-- C4: the claim states a successful consistency check returns the winning
pair together with the mean confidence of the matching samples.  The code
returns only the bare pair: its result is identical on two sample lists that
differ only in their confidences, while the spec-mandated result carries
different mean confidences (1 versus 1/2) on those same lists. -/
theorem claim4_counterexample :
    consistencyFromSamples samplesAT1 = some ("A", "T") ∧
    consistencyFromSamples samplesAT0 = some ("A", "T") ∧
    spec_consistency_checker samplesAT1 = some (("A", "T"), 1) ∧
    spec_consistency_checker samplesAT0 = some (("A", "T"), 1 / 2) ∧
    (1 : ℚ) ≠ 1 / 2 := by
  refine ⟨rfl, rfl, ?_, ?_, by norm_num⟩
  · have hb : pickBest (fun p => (validPairs samplesAT1).count p)
        (validPairs samplesAT1) = some ("A", "T") := by rfl
    have hc : (validPairs samplesAT1).count ("A", "T") = 2 := by rfl
    have hm : matchingConfSum samplesAT1 ("A", "T") = 2 := by
      have h2 : matchingConfSum samplesAT1 ("A", "T") = ([(1 : ℚ), 1]).sum := by rfl
      rw [h2]; norm_num
    simp only [spec_consistency_checker, hb, hc, hm, CONSISTENCY_THRESHOLD]
    norm_num
  · have hb : pickBest (fun p => (validPairs samplesAT0).count p)
        (validPairs samplesAT0) = some ("A", "T") := by rfl
    have hc : (validPairs samplesAT0).count ("A", "T") = 2 := by rfl
    have hm : matchingConfSum samplesAT0 ("A", "T") = 1 := by
      have h2 : matchingConfSum samplesAT0 ("A", "T") = ([(1 : ℚ), 0]).sum := by rfl
      rw [h2]; norm_num
    simp only [spec_consistency_checker, hb, hc, hm, CONSISTENCY_THRESHOLD]
    norm_num

/-- C4 (amended): when the consistency check succeeds it returns only the
winning (artist, title) pair; the confidence scores are collected but never
used, so the result is invariant under any reassignment of the confidences
and no mean confidence is returned. -/
theorem claim4_confidence_ignored (recog : Nat → RecogResult) (g : Nat → ℚ)
    (samples : List RecogResult) (g2 : RecogResult → ℚ) :
    check_song_consistency (fun i => ⟨(recog i).artist, (recog i).title, g i⟩) =
      check_song_consistency recog ∧
    consistencyFromSamples (samples.map fun r => ⟨r.artist, r.title, g2 r⟩) =
      consistencyFromSamples samples := by
  constructor
  · unfold check_song_consistency consistencyFromSamples
    have hv : validPairs ((List.range CONSISTENCY_CHECKS).map
          fun i => (⟨(recog i).artist, (recog i).title, g i⟩ : RecogResult)) =
        validPairs ((List.range CONSISTENCY_CHECKS).map recog) := by
      unfold validPairs
      rw [List.filterMap_map, List.filterMap_map]
      have : (validOfSample ∘ fun i =>
            (⟨(recog i).artist, (recog i).title, g i⟩ : RecogResult))
          = validOfSample ∘ recog := funext fun i => rfl
      rw [this]
    rw [hv]
  · unfold consistencyFromSamples
    rw [validPairs_map_reassign]

/-! ## C2 -/

/-- C2: the claim states that on an empty/invalid identification the previous
pair is returned unchanged as the dedup anchor.  The code clears now-playing
and scrobbles nothing, but returns `(None, None, None)`: with previous pair
("A","T") the returned artist is `none`, not `some "A"`. -/
theorem claim2_counterexample :
    update_lastfm_status false false none (some "T") (some ("A", "T"))
        (some 100) 200 =
      ((none, none, none), [NetEffect.clearNowPlaying]) ∧
    (none : Option String) ≠ some "A" := by
  exact ⟨rfl, by decide⟩

/-- C2 (amended): on an empty/invalid identification the now-playing status is
cleared (the clearing call is attempted even when the network fails), nothing
is scrobbled, and the function returns `(None, None, None)` — the previous
pair is discarded rather than preserved. -/
theorem claim2_invalid_clears (npFails scrFails : Bool)
    (artist title : Option String) (last : Option SongPair)
    (startTime : Option Int) (now : Int)
    (h : validNames artist title = false) :
    update_lastfm_status npFails scrFails artist title last startTime now =
      ((none, none, none), [NetEffect.clearNowPlaying]) := by
  cases artist with
  | none => cases title <;> rfl
  | some a =>
      cases title with
      | none => rfl
      | some t =>
          have h2 : validPair (a, t) = false := h
          simp [update_lastfm_status, h2]

/-- C2 witness: the amended theorem applied to an empty-string artist. -/
theorem claim2_witness :
    update_lastfm_status true false (some "") (some "T") (some ("B", "U"))
        none 0 =
      ((none, none, none), [NetEffect.clearNowPlaying]) :=
  claim2_invalid_clears true false (some "") (some "T") (some ("B", "U"))
    none 0 (by decide)

/-! ## C10 -/

/-- C10: a clip whose maximum absolute amplitude is below 0.05 makes
`recognize_song` return `(None, None, 0)` without contacting the recognition
service, whatever the service would have answered. -/
theorem claim10_quiet_audio_no_service (samples : List ℚ)
    (svc : Option (String × String)) (h : is_audio_active samples < 1 / 20) :
    recognize_song (some samples) svc = ((none, none, 0), false) := by
  simp only [recognize_song]
  rw [if_pos h]

/-- C10 witness: a silent clip with a single zero sample. -/
theorem claim10_witness :
    is_audio_active [(0 : ℚ)] < 1 / 20 ∧
    recognize_song (some [(0 : ℚ)]) (some ("A", "T")) =
      ((none, none, 0), false) :=
  ⟨by norm_num [is_audio_active],
   claim10_quiet_audio_no_service [(0 : ℚ)] (some ("A", "T"))
     (by norm_num [is_audio_active])⟩

/-! ## C5 -/

/-- C5: presenting the same (artist, title) pair again — to the library
deduplicator with the pair as the previous logged song, or to the manager with
the pair as the current track — issues no network call (the effect trace is
empty, so in particular no second scrobble) and returns the pair unchanged. -/
theorem claim5_same_pair_no_effects (a t : String) (st : Option Int) (now : Int)
    (f1 f2 : Bool) (s : Mgr) (ok : Bool) (now2 : Int)
    (hv : validPair (a, t) = true)
    (hcur : s.current_track = some (some a, some t)) :
    update_lastfm_status f1 f2 (some a) (some t) (some (a, t)) st now =
      ((some a, some t, if truthyTime st then st else some now), []) ∧
    process_song_detection ok s (some a, some t) now2 =
      ({ s with no_song_count := 0 }, []) := by
  constructor
  · simp [update_lastfm_status, hv]
  · simp [process_song_detection, curOfTrack, hcur]

/-- C5 witness: the pair ("A","T") presented again to both deduplicators. -/
theorem claim5_witness :
    update_lastfm_status false false (some "A") (some "T") (some ("A", "T"))
        (some 10) 99 = ((some "A", some "T", some 10), []) ∧
    process_song_detection true mgrBadState (some "A", some "T") 5 =
      ({ mgrBadState with no_song_count := 0 }, []) :=
  claim5_same_pair_no_effects "A" "T" (some 10) 99 false false mgrBadState
    true 5 (by decide) rfl

/-! ## C6 -/

theorem process_preserves_running_tasks (ok : Bool) (s : Mgr) (song : TrackPair)
    (now : Int) :
    (process_song_detection ok s song now).1.running = s.running ∧
    (process_song_detection ok s song now).1.active_tasks = s.active_tasks := by
  constructor <;>
    (unfold process_song_detection
     repeat' split
     all_goals rfl)

theorem mgr_tasks_inv {s : Mgr} (h : Reach s) :
    s.active_tasks = if s.running then 1 else 0 := by
  induction h with
  | init => rfl
  | @step s1 s2 e hr hstep ih =>
      cases e with
      | start d =>
          simp only [mgrStep] at hstep
          have h2 : s2 = (mgr_start s1 d).1 := (Option.some.inj hstep).symm
          subst h2
          unfold mgr_start
          by_cases hb : s1.running
          · rw [if_pos hb]; rw [ih]
          · rw [if_neg hb]
            rw [ih]
            simp [hb]
      | stop =>
          simp only [mgrStep] at hstep
          have h2 : s2 = (mgr_stop s1).1 := (Option.some.inj hstep).symm
          subst h2
          unfold mgr_stop
          by_cases hb : s1.running
          · rw [if_pos hb]; rw [ih]; simp [hb]
          · rw [if_neg hb]; rw [ih]
      | detect song ok now =>
          simp only [mgrStep] at hstep
          by_cases hb : s1.running
          · rw [if_pos hb] at hstep
            have h2 : s2 = (process_song_detection ok s1 song now).1 :=
              (Option.some.inj hstep).symm
            subst h2
            rw [(process_preserves_running_tasks ok s1 song now).1,
                (process_preserves_running_tasks ok s1 song now).2]
            exact ih
          · rw [if_neg hb] at hstep
            exact Option.noConfusion hstep
      | fatal =>
          simp only [mgrStep] at hstep
          by_cases hb : s1.running
          · rw [if_pos hb] at hstep
            have h2 : s2 = mgr_fatal s1 := (Option.some.inj hstep).symm
            subst h2
            unfold mgr_fatal
            rw [ih]
            simp [hb]
          · rw [if_neg hb] at hstep
            exact Option.noConfusion hstep

/-- C6: `start` while a session is already running returns failure and leaves
the state — in particular the recorded device and the ghost count of run-loop
tasks — entirely unchanged; and in every reachable manager state at most one
run-loop task is active. -/
theorem claim6_start_single_flight :
    (∀ (s : Mgr) (d : Int), s.running = true → mgr_start s d = (s, false)) ∧
    (∀ s : Mgr, Reach s → s.active_tasks ≤ 1) := by
  constructor
  · intro s d hr
    unfold mgr_start
    rw [if_pos hr]
  · intro s h
    rw [mgr_tasks_inv h]
    split <;> simp

/-- C6 witness: a running state refuses a second start; the initial state has
no active task. -/
theorem claim6_witness :
    mgr_start ⟨true, some 7, none, none, 0, 1⟩ 3 =
      (⟨true, some 7, none, none, 0, 1⟩, false) ∧
    mgrInit.active_tasks ≤ 1 :=
  ⟨claim6_start_single_flight.1 ⟨true, some 7, none, none, 0, 1⟩ 3 rfl,
   claim6_start_single_flight.2 mgrInit Reach.init⟩

/-! ## C3 -/

/-- C3: the claim states every exit path that sets `running` to false,
including the fatal-error path, clears `currentTrack`.  The state reached by
start(0), a successful detection of ("A","T"), then a fatal run-loop error,
has `running = false` with `current_track` still set. -/
theorem claim3_counterexample :
    Reach mgrBadState ∧ mgrBadState.running = false ∧
      mgrBadState.current_track ≠ none := by
  refine ⟨?_, rfl, by decide⟩
  have h1 : mgrStep mgrInit (MgrEv.start 0) =
      some ⟨true, some 0, none, none, 0, 1⟩ := rfl
  have r1 := Reach.step _ Reach.init h1
  have h2 : mgrStep ⟨true, some 0, none, none, 0, 1⟩
      (MgrEv.detect (some "A", some "T") true 5) =
      some ⟨true, some 0, some (some "A", some "T"),
            some (some "A", some "T"), 0, 1⟩ := rfl
  have r2 := Reach.step _ r1 h2
  have h3 : mgrStep ⟨true, some 0, some (some "A", some "T"),
      some (some "A", some "T"), 0, 1⟩ MgrEv.fatal = some mgrBadState := rfl
  exact Reach.step _ r2 h3

/-- C3 (amended): stopping a running session always clears `current_track`
and sets `running` to false, but the fatal-error path of the run loop sets
`running` to false while leaving `current_track` exactly as it was, so a
state with `running = false` and a non-null `current_track` is reachable. -/
theorem claim3_stop_clears_fatal_not (s : Mgr) (hr : s.running = true) :
    (mgr_stop s).1.current_track = none ∧ (mgr_stop s).1.running = false ∧
    (mgr_fatal s).running = false ∧ (mgr_fatal s).current_track = s.current_track := by
  unfold mgr_stop mgr_fatal
  rw [if_pos hr]
  exact ⟨rfl, rfl, rfl, rfl⟩

/-- C3 witness: the amended theorem applied to a running state holding a
current track. -/
theorem claim3_witness :
    (mgr_stop ⟨true, none, some (some "X", some "Y"), none, 0, 1⟩).1.current_track
      = none ∧
    (mgr_stop ⟨true, none, some (some "X", some "Y"), none, 0, 1⟩).1.running
      = false ∧
    (mgr_fatal ⟨true, none, some (some "X", some "Y"), none, 0, 1⟩).running
      = false ∧
    (mgr_fatal ⟨true, none, some (some "X", some "Y"), none, 0, 1⟩).current_track
      = (⟨true, none, some (some "X", some "Y"), none, 0, 1⟩ : Mgr).current_track :=
  claim3_stop_clears_fatal_not ⟨true, none, some (some "X", some "Y"), none, 0, 1⟩ rfl

/-! ## C7 -/

theorem standby_preserved (s : ActState) (a : ℚ) (hs : s.in_standby = true)
    (ha : ¬(ACTIVITY_THRESHOLD < a)) :
    (levelUpdateMain s a).in_standby = true := by
  unfold levelUpdateMain levelUpdate
  by_cases h1 : a < SILENCE_THRESHOLD
  · rw [if_pos h1]
    simp [hs]
  · rw [if_neg h1, if_neg ha]
    exact hs

theorem cycle_standby (s : ActState) (a1 a2 : ℚ) (hs : s.in_standby = true)
    (h1 : ¬(ACTIVITY_THRESHOLD < a1)) :
    mainCycleStep s a1 a2 = (levelUpdateMain s a1, false) ∧
    (levelUpdateMain s a1).in_standby = true := by
  have hp := standby_preserved s a1 hs h1
  constructor
  · dsimp only [mainCycleStep]
    rw [if_pos hp]
  · exact hp

/-- C7: a main-loop iteration issues a recognition call only when it ends in
the Active state, and from a Standby state an iteration whose loudness samples
never exceed the activity threshold issues no recognition call and stays in
Standby — over any number of such iterations the loop only re-samples
loudness. -/
theorem claim7_standby_skips_recognition :
    (∀ (s : ActState) (a1 a2 : ℚ), (mainCycleStep s a1 a2).2 = true →
      (mainCycleStep s a1 a2).1.in_standby = false) ∧
    (∀ (s : ActState) (l : List (ℚ × ℚ)), s.in_standby = true →
      (∀ c ∈ l, ¬(ACTIVITY_THRESHOLD < c.1) ∧ ¬(ACTIVITY_THRESHOLD < c.2)) →
      (runCycles s l).1.in_standby = true ∧
      ∀ b ∈ (runCycles s l).2, b = false) := by
  constructor
  · intro s a1 a2
    dsimp only [mainCycleStep]
    by_cases h1 : (levelUpdateMain s a1).in_standby
    · rw [if_pos h1]
      intro h
      exact absurd h (by simp)
    · rw [if_neg h1]
      by_cases h2 : (levelUpdateMain (levelUpdateMain s a1) a2).in_standby
      · rw [if_pos h2]
        intro h
        exact absurd h (by simp)
      · rw [if_neg h2]
        intro _
        simpa using h2
  · intro s l
    induction l generalizing s with
    | nil =>
        intro hs _
        exact ⟨hs, by simp [runCycles]⟩
    | cons c cs ih =>
        intro hs hl
        have hc := hl c (List.mem_cons_self c cs)
        have hcy := cycle_standby s c.1 c.2 hs hc.1
        have hrest := ih (levelUpdateMain s c.1) hcy.2
          (fun x hx => hl x (List.mem_cons_of_mem c hx))
        dsimp only [runCycles]
        rw [hcy.1]
        refine ⟨hrest.1, ?_⟩
        intro b hb
        rcases List.mem_cons.mp hb with hb1 | hb2
        · exact hb1
        · exact hrest.2 b hb2

/-- C7 witness: three standby iterations with silent samples. -/
theorem claim7_witness :
    (runCycles ⟨true, 0, 0⟩ [((0 : ℚ), (0 : ℚ)), (0, 0), (0, 0)]).1.in_standby
      = true ∧
    ∀ b ∈ (runCycles ⟨true, 0, 0⟩ [((0 : ℚ), (0 : ℚ)), (0, 0), (0, 0)]).2,
      b = false :=
  claim7_standby_skips_recognition.2 ⟨true, 0, 0⟩
    [((0 : ℚ), (0 : ℚ)), (0, 0), (0, 0)] rfl
    (by
      intro c hc
      have h0 : ¬(ACTIVITY_THRESHOLD < (0 : ℚ)) := by
        norm_num [ACTIVITY_THRESHOLD]
      simp only [List.mem_cons, List.not_mem_nil, or_false] at hc
      rcases hc with h | h | h <;> rw [h] <;> exact ⟨h0, h0⟩)

/-! ## C8 -/

theorem levelUpdate_below (thrS thrA : ℚ) (w aw : Nat) (s : ActState) (a : ℚ)
    (h : a < thrS) :
    levelUpdate thrS thrA w aw s a =
      ⟨if w ≤ s.silence_count + 1 ∧ s.in_standby = false then true
        else s.in_standby,
       s.silence_count + 1, 0⟩ := by
  unfold levelUpdate
  rw [if_pos h]

theorem run_below (thrS thrA : ℚ) (w aw : Nat) :
    ∀ (amps : List ℚ) (b : Bool) (k ac : Nat),
      (∀ a ∈ amps, a < thrS) → amps ≠ [] →
      amps.foldl (levelUpdate thrS thrA w aw) ⟨b, k, ac⟩ =
        ⟨b || decide (w ≤ k + amps.length), k + amps.length, 0⟩ := by
  intro amps
  induction amps with
  | nil => intro b k ac _ hne; exact absurd rfl hne
  | cons a rest ih =>
      intro b k ac h _
      have ha : a < thrS := h a (List.mem_cons_self a rest)
      have hstep : levelUpdate thrS thrA w aw ⟨b, k, ac⟩ a =
          ⟨b || decide (w ≤ k + 1), k + 1, 0⟩ := by
        rw [levelUpdate_below thrS thrA w aw ⟨b, k, ac⟩ a ha]
        cases b with
        | false => simp
        | true => simp
      rw [List.foldl_cons, hstep]
      cases rest with
      | nil => simp
      | cons a2 rest2 =>
          have hrest : ∀ x ∈ a2 :: rest2, x < thrS :=
            fun x hx => h x (List.mem_cons_of_mem a hx)
          rw [ih (b || decide (w ≤ k + 1)) (k + 1) 0 hrest (by simp)]
          have hbool : ((b || decide (w ≤ k + 1)) ||
              decide (w ≤ k + 1 + (a2 :: rest2).length)) =
              (b || decide (w ≤ k + 1 + (a2 :: rest2).length)) := by
            by_cases h1 : w ≤ k + 1
            · have h2 : w ≤ k + 1 + (a2 :: rest2).length :=
                Nat.le_trans h1 (Nat.le_add_right _ _)
              simp only [List.length_cons] at h2
              simp [h1, h2]
            · simp [h1]
          have hlen : k + 1 + (a2 :: rest2).length = k + (a :: a2 :: rest2).length := by
            simp [List.length_cons]
            omega
          rw [hbool, hlen]

/-- C8: from the Active state each below-threshold sample increments the
silence counter and resets the activity counter, and after `n` consecutive
below-threshold samples the state is Standby exactly when `n` has reached
`standbyWindow` — so exactly `standbyWindow` such samples transition
Active→Standby and any fewer do not. -/
theorem claim8_standby_window :
    (∀ (thrS thrA : ℚ) (w aw : Nat) (s : ActState) (a : ℚ), a < thrS →
      (levelUpdate thrS thrA w aw s a).silence_count = s.silence_count + 1 ∧
      (levelUpdate thrS thrA w aw s a).activity_count = 0) ∧
    (∀ (thrS thrA : ℚ) (w aw ac : Nat) (amps : List ℚ), 1 ≤ w →
      (∀ a ∈ amps, a < thrS) →
      (amps.foldl (levelUpdate thrS thrA w aw) ⟨false, 0, ac⟩).in_standby =
        decide (w ≤ amps.length) ∧
      (amps.foldl (levelUpdate thrS thrA w aw) ⟨false, 0, ac⟩).silence_count =
        amps.length) := by
  constructor
  · intro thrS thrA w aw s a h
    rw [levelUpdate_below thrS thrA w aw s a h]
    exact ⟨rfl, rfl⟩
  · intro thrS thrA w aw ac amps hw h
    cases amps with
    | nil =>
        constructor
        · have : ¬(w ≤ 0) := by omega
          simp [this]
        · rfl
    | cons a rest =>
        rw [run_below thrS thrA w aw (a :: rest) false 0 ac h (by simp)]
        constructor
        · simp
        · simp

/-- C8 witness: with `standbyWindow = 5`, five consecutive silent samples from
Active reach Standby (`decide (5 ≤ 5) = true`) with the silence counter at 5. -/
theorem claim8_witness :
    ((List.replicate 5 (0 : ℚ)).foldl
        (levelUpdate SILENCE_THRESHOLD ACTIVITY_THRESHOLD 5 2)
        ⟨false, 0, 0⟩).in_standby =
      decide (5 ≤ (List.replicate 5 (0 : ℚ)).length) ∧
    ((List.replicate 5 (0 : ℚ)).foldl
        (levelUpdate SILENCE_THRESHOLD ACTIVITY_THRESHOLD 5 2)
        ⟨false, 0, 0⟩).silence_count =
      (List.replicate 5 (0 : ℚ)).length :=
  claim8_standby_window.2 SILENCE_THRESHOLD ACTIVITY_THRESHOLD 5 2 0
    (List.replicate 5 (0 : ℚ)) (by norm_num)
    (by
      intro a ha
      rw [List.eq_of_mem_replicate ha]
      norm_num [SILENCE_THRESHOLD])

/-! ## C9 -/

theorem mainNoSong_flag (s : CliState) (aggr : Option SongPair) :
    (mainNoSong s aggr).2 = decide (3 ≤ s.no_song_count + 1) := by
  unfold mainNoSong
  by_cases h3 : 3 ≤ s.no_song_count + 1
  · rw [if_pos h3]
    cases aggr with
    | none => simp [h3]
    | some q => by_cases hq : validPair q = true <;> simp [hq, h3]
  · rw [if_neg h3]
    simp [h3]

/-- C9: the claim states the aggressive fallback is invoked only after at
least 3 consecutive consistency-check failures.  From a fresh state, feeding
the loop a detection of ("A","T"), two failures, a re-detection of the same
track, then one more failure, invokes the fallback at the fifth step even
though the immediately preceding consistency check succeeded — the counter is
not reset on a still-playing detection, so the failures were not consecutive. -/
theorem claim9_counterexample :
    (runMain ⟨none, 0⟩ cexInputs).2 = [false, false, false, false, true] ∧
    cexInputs.map Prod.fst =
      [some ("A", "T"), none, none, some ("A", "T"), none] ∧
    songValidOpt (some ("A", "T")) = true := by
  exact ⟨rfl, rfl, rfl⟩

/-- C9 (amended): the aggressive fallback is invoked exactly when the
consistency result is invalid and the non-detection counter reaches 3 — the
counter being reset only when a new (different) track is detected, so the
failures need not be consecutive; a re-detection of the current track leaves
the counter untouched.  The fallback itself runs the full consistency
procedure for at most `AGGRESSIVE_CHECK_COUNT` rounds, returns the result of
the first round yielding a valid pair and none when every round fails. -/
theorem claim9_aggressive_gate :
    (∀ (s : CliState) (song aggr : Option SongPair),
      ((mainDetectStep s song aggr).2 = true ↔
        (songValidOpt song = false ∧ 3 ≤ s.no_song_count + 1))) ∧
    (∀ (s : CliState) (p : SongPair) (aggr : Option SongPair),
      validPair p = true → s.current_song = some p →
      mainDetectStep s (some p) aggr = (s, false)) ∧
    (∀ rr : Nat → Nat → RecogResult,
      (∀ i, i < AGGRESSIVE_CHECK_COUNT → check_song_consistency (rr i) = none) →
      aggressive_song_check rr = none) ∧
    (∀ (rr : Nat → Nat → RecogResult) (j : Nat) (p : SongPair),
      j < AGGRESSIVE_CHECK_COUNT →
      (∀ i, i < j → check_song_consistency (rr i) = none) →
      check_song_consistency (rr j) = some p →
      aggressive_song_check rr = some p) := by
  refine ⟨?_, ?_, ?_, ?_⟩
  · intro s song aggr
    cases song with
    | none =>
        simp only [mainDetectStep]
        rw [mainNoSong_flag]
        simp [songValidOpt]
    | some p =>
        by_cases hv : validPair p = true
        · simp only [mainDetectStep]
          rw [if_pos hv]
          constructor
          · intro h
            split at h <;> simp at h
          · intro h
            rw [songValidOpt] at h
            rw [hv] at h
            exact absurd h.1 (by simp)
        · simp only [mainDetectStep]
          rw [if_neg hv]
          rw [mainNoSong_flag]
          simp only [songValidOpt]
          simp [hv]
  · intro s p aggr hv hcur
    simp [mainDetectStep, hv, hcur]
  · intro rr h
    have h0 := h 0 (by decide)
    have h1 := h 1 (by decide)
    have h2 := h 2 (by decide)
    show aggressiveAux [check_song_consistency (rr 0), check_song_consistency (rr 1),
      check_song_consistency (rr 2)] = none
    rw [h0, h1, h2]
    rfl
  · intro rr j p hj hprev hcheck
    have hv : validPair p = true := check_song_consistency_valid hcheck
    have hj3 : j < 3 := hj
    show aggressiveAux [check_song_consistency (rr 0), check_song_consistency (rr 1),
      check_song_consistency (rr 2)] = some p
    interval_cases j
    · rw [hcheck]
      simp [aggressiveAux, hv]
    · rw [hprev 0 (by decide), hcheck]
      simp [aggressiveAux, hv]
    · rw [hprev 0 (by decide), hprev 1 (by decide), hcheck]
      simp [aggressiveAux, hv]

/-- C9 witness: the amended theorem applied to a still-playing re-detection,
an all-failing recognizer and an immediately succeeding recognizer. -/
theorem claim9_witness :
    mainDetectStep ⟨some ("A", "T"), 2⟩ (some ("A", "T")) none =
      (⟨some ("A", "T"), 2⟩, false) ∧
    aggressive_song_check (fun _ _ => ⟨none, none, 0⟩) = none ∧
    aggressive_song_check (fun _ _ => ⟨some "A", some "T", 1⟩) = some ("A", "T") :=
  ⟨claim9_aggressive_gate.2.1 ⟨some ("A", "T"), 2⟩ ("A", "T") none
     (by decide) rfl,
   claim9_aggressive_gate.2.2.1 (fun _ _ => ⟨none, none, 0⟩)
     (fun _ _ => rfl),
   claim9_aggressive_gate.2.2.2 (fun _ _ => ⟨some "A", some "T", 1⟩) 0
     ("A", "T") (by decide) (fun i hi => absurd hi (Nat.not_lt_zero i)) rfl⟩

end VinylPi
